import Mathlib

/-!
Verification development for the spend-ingestion bot (`src/main.py`).

The Python source is shallowly embedded below:
* pure text functions (`_norm_amount`, `extract_cluster`, the `AMOUNT_RE`
  regex scan) become executable Lean functions on `String` / `List Char`;
* `Decimal` values become `ℚ` (the program's `Decimal` arithmetic on the
  parsed amounts is exact rational arithmetic; the final `float(amount)`
  conversion and the SQLite `REAL` column are binary floating point and are
  NOT modelled — claims that depend on binary-float rounding are out of
  scope of this embedding);
* the SQLite table `spends` becomes a list of `SpendRow` in insertion order;
* the `ingest` handler becomes a pure function from a message and a store to
  an outcome and a new store; a Python exception escaping the handler is the
  `invalidAmount` outcome (the store is untouched in that case, exactly as in
  the source where the exception is raised before the transaction opens);
* wall-clock time at handler execution (`dt.datetime.now()`) is passed in as
  an explicit epoch-seconds argument.

Character classes (`\d`, `\s`) are modelled over the ASCII/common-whitespace
alphabet; every string the program itself feeds to these functions stays in
that alphabet.
-/

/-- Python `\s` (the whitespace characters relevant here: ASCII whitespace
plus NBSP and narrow NBSP, which `re` matches for `str` patterns). -/
def pyIsSpace (c : Char) : Bool :=
  c == ' ' || c == '\t' || c == '\n' || c == '\r' || c == '\u000B' ||
  c == '\u000C' || c == ' ' || c == ' '

/-- The character class `[\d\s.,]` of `AMOUNT_RE`. -/
def isAmtChar (c : Char) : Bool :=
  c.isDigit || pyIsSpace c || c == '.' || c == ','

/-- Does the text start with `USD` case-insensitively (the `USD` alternative
of the currency marker in `AMOUNT_RE`, compiled with `re.I`)? -/
def startsWithUSD : List Char → Bool
  | a :: b :: c :: _ =>
      (a == 'U' || a == 'u') && (b == 'S' || b == 's') && (c == 'D' || c == 'd')
  | _ => false

/-- Consume the optional trailing currency marker `(?:USD|\$)?` (the engine
prefers `USD`, then `\$`, then nothing). -/
def stripCurrencyTail (cs : List Char) : List Char :=
  if startsWithUSD cs then cs.drop 3
  else match cs with
    | '$' :: t => t
    | _ => cs

/-- The part `([\d\s.,]+)\s*(?:USD|\$)?` of `AMOUNT_RE` at the current
position: the greedy group takes the maximal run of class characters (it
must be nonempty); because whitespace belongs to the class, the character
after the maximal run is never whitespace, so the `\s*` in between always
matches empty; then the optional currency marker is consumed if present.
Returns the captured group and the rest of the text after the match. -/
def amtBody (cs : List Char) : Option (List Char × List Char) :=
  let run := cs.takeWhile isAmtChar
  if run.isEmpty then none
  else some (run, stripCurrencyTail (cs.drop run.length))

/-- After a currency marker was consumed, `\s*` runs greedily and then the
group must match.  If the first character after the whitespace run is in the
class the group starts there; otherwise the greedy `\s*` backtracks exactly
one character (which is whitespace, hence in the group's class, so the group
then always succeeds as that single character). -/
def afterCurrencyMark (cs : List Char) : Option (List Char × List Char) :=
  let w := (cs.takeWhile pyIsSpace).length
  match amtBody (cs.drop w) with
  | some r => some r
  | none => if w = 0 then none else amtBody (cs.drop (w - 1))

/-- One attempt of `AMOUNT_RE` at the current position, in the engine's
preference order: currency-marker prefix first (`USD`, then `\$`), then the
empty prefix. -/
def tryAmtMatch (cs : List Char) : Option (List Char × List Char) :=
  if startsWithUSD cs then
    match afterCurrencyMark (cs.drop 3) with
    | some r => some r
    | none => amtBody cs
  else match cs with
    | '$' :: t =>
      (match afterCurrencyMark t with
       | some r => some r
       | none => amtBody cs)
    | _ => amtBody cs

/-- `re.findall` scan: try the pattern at each position, on success record
group 1 and resume after the match, on failure advance one character.  Every
match consumes at least one character, so `cs.length` steps of fuel
suffice. -/
def pyFindallAux : Nat → List Char → List (List Char)
  | 0, _ => []
  | _ + 1, [] => []
  | fuel + 1, c :: t =>
    match tryAmtMatch (c :: t) with
    | some (g, rest) => g :: pyFindallAux fuel rest
    | none => pyFindallAux fuel t

/-- `AMOUNT_RE.findall(text)` (the list of captured `[\d\s.,]+` groups). -/
def pyFindallAmounts (s : String) : List String :=
  (pyFindallAux s.toList.length s.toList).map (fun l => String.mk l)

/-- Numeric value of a digit string (empty means 0, as in `Decimal("5.")`
where the fractional part is empty). -/
def digitsToNat (cs : List Char) : Nat :=
  cs.foldl (fun n c => 10 * n + (c.toNat - '0'.toNat)) 0

/-- Python `Decimal(s)` restricted to the alphabet this program can produce
(digits, `.`, `,` and whitespace — the `AMOUNT_RE` class after
`_norm_amount`'s replacements).  `Decimal` strips leading/trailing
whitespace and underscores, then requires a plain decimal numeral: at most
one `.`, at least one digit, no other characters.  `none` models the
`InvalidOperation` exception. -/
def pyDecimal (cs : List Char) : Option ℚ :=
  let t := ((cs.dropWhile pyIsSpace).reverse.dropWhile pyIsSpace).reverse
  let t := t.filter (fun c => c != '_')
  if t.any (fun c => !(c.isDigit || c == '.')) then none
  else if t.count '.' > 1 then none
  else if t.all (fun c => !c.isDigit) then none
  else
    let ip := t.takeWhile (fun c => c != '.')
    let fp := (t.dropWhile (fun c => c != '.')).drop 1
    some (mkRat (digitsToNat ip * 10 ^ fp.length + digitsToNat fp) (10 ^ fp.length))

/-- `_norm_amount` (src/main.py:38-44): strip U+202F and ASCII spaces; if
exactly one comma and no period, the comma becomes a decimal point; if (in
the possibly updated string) more than one comma and no period, commas are
removed; then `Decimal(s)`. -/
def norm_amount (s : String) : Option ℚ :=
  let u := s.toList.filter (fun c => c != ' ' && c != ' ')
  let u := if u.count ',' == 1 && u.count '.' == 0 then
             u.map (fun c => if c == ',' then '.' else c) else u
  let u := if u.count ',' > 1 && u.count '.' == 0 then
             u.filter (fun c => c != ',') else u
  pyDecimal u

/-- The fixed cluster tuple `CLUSTERS` (src/main.py:23), in its order. -/
def CLUSTERS : List String := ["TEXAS", "SKY", "ALX"]

/-- Substring occurrence (Python `c in up`). -/
def occursIn (pat : List Char) : List Char → Bool
  | [] => pat.isEmpty
  | c :: t => pat.isPrefixOf (c :: t) || occursIn pat t

/-- `extract_cluster` (src/main.py:46-51): upper-case the text and return the
first member of `CLUSTERS`, in tuple order, occurring as a substring. -/
def extract_cluster (s : String) : Option String :=
  let up := s.toList.map Char.toUpper
  CLUSTERS.find? (fun c => occursIn c.toList up)

-- sanity checks for the embedding (concrete behaviours of the source)
example : norm_amount "1234,56" = some (mkRat 123456 100) := by decide
example : norm_amount "3 400" = some (mkRat 3400 1) := by decide
example : (mkRat 123456 100 : ℚ) = 123456 / 100 := by norm_num [mkRat, Rat.normalize]
example : norm_amount "3 400" = some 3400 := by
  have h : norm_amount "3 400" = some (mkRat 3400 1) := by decide
  rw [h]; norm_num [mkRat, Rat.normalize]
example : norm_amount "1.234,56" = none := by decide
example : pyFindallAmounts "TEXAS spend 500" = [" ", " 500"] := by decide
example : pyFindallAmounts "TEXAS 500" = [" 500"] := by decide
example : pyFindallAmounts "$ 12 USD" = ["12 "] := by decide
example : extract_cluster "sky and texas" = some "TEXAS" := by decide
example : norm_amount " 500" = some 500 := by decide

/-- A row of the `spends` table (src/main.py:28-36).  `ymd` is the local
civil-day index (see `localDay`); `amount` is kept as the exact rational
value of the parsed `Decimal` (the source's `float(amount)` narrowing to
the SQLite `REAL` column is not modelled). -/
structure SpendRow where
  chat_id : Int
  message_id : Int
  ymd : Int
  cluster : String
  amount : ℚ
deriving DecidableEq, Repr

/-- Python `(msg.text or msg.caption or "")` — `or` takes the first truthy
operand, and the empty string is falsy. -/
def pyOrText (t cap : Option String) : String :=
  let s := t.getD ""
  if s ≠ "" then s else cap.getD ""

/-- Python `str.strip()`: drop leading and trailing whitespace. -/
def pyStrip (s : String) : String :=
  String.mk (((s.toList.dropWhile pyIsSpace).reverse.dropWhile pyIsSpace).reverse)

/-- Python `max(values, default=d)`: `d` only when the sequence is empty. -/
def pyMax (vs : List ℚ) (d : ℚ) : ℚ :=
  match vs with
  | [] => d
  | v :: rest => rest.foldl max v

/-- An inbound Telegram message as `ingest` reads it.  For a message update
`update.effective_chat.id` and `msg.chat.id` are the same chat, so a single
`chat_id` field models both; `date` is the message's send timestamp, which
`ingest` never reads. -/
structure Msg where
  chat_id : Int
  message_id : Int
  text : Option String
  caption : Option String
  date : Int
deriving DecidableEq, Repr

/-- `dt.datetime.now().astimezone().strftime("%Y-%m-%d")` (src/main.py:73),
abstracted: `now` is the wall-clock epoch seconds at the moment the handler
runs (the time the message is received and ingested), `tz` the local UTC
offset in seconds, and the `%Y-%m-%d` string is represented by the civil-day
index it renders (the rendering is a bijection on day indices). -/
def localDay (tz now : Int) : Int :=
  (now + tz).fdiv 86400

/-- Outcome of one `ingest` call.  The source returns `None` on every path;
the path taken is made explicit here.  `invalidAmount` is the
`decimal.InvalidOperation` exception escaping the handler (raised by
`_norm_amount`, before the database transaction opens). -/
inductive IngestResult where
  | filteredWrongOrigin
  | filteredEmpty
  | filteredNoCluster
  | filteredNoAmount
  | filteredNonPositive
  | invalidAmount
  | duplicate
  | stored
deriving DecidableEq, Repr

/-- The `ingest` handler (src/main.py:54-83) as a pure function from the
message, the wall clock and the store to an outcome and the new store.  The
sequential short-circuit structure follows the source line by line; the
`let`-bound locals of the source are inlined. -/
def ingest (sourceChatId tz now : Int) (m : Msg) (db : List SpendRow) :
    IngestResult × List SpendRow :=
  if m.chat_id ≠ sourceChatId then (.filteredWrongOrigin, db)
  else if pyStrip (pyOrText m.text m.caption) = "" then (.filteredEmpty, db)
  else match extract_cluster (pyStrip (pyOrText m.text m.caption)) with
    | none => (.filteredNoCluster, db)
    | some cluster =>
      if (pyFindallAmounts (pyStrip (pyOrText m.text m.caption))).isEmpty then
        (.filteredNoAmount, db)
      else match (pyFindallAmounts (pyStrip (pyOrText m.text m.caption))).mapM norm_amount with
        | none => (.invalidAmount, db)
        | some vs =>
          if pyMax vs 0 ≤ 0 then (.filteredNonPositive, db)
          else if db.any (fun r => r.chat_id == m.chat_id && r.message_id == m.message_id) then
            (.duplicate, db)
          else
            (.stored, db ++ [⟨m.chat_id, m.message_id, localDay tz now, cluster, pyMax vs 0⟩])

/-- SQLite `ROUND(x, 2)` on the exact rational value: round to the nearest
multiple of 1/100, halves away from zero. -/
def roundHalfAwayZ (q : ℚ) : ℤ :=
  if 0 ≤ q then ⌊q + mkRat 1 2⌋ else -⌊-q + mkRat 1 2⌋

/-- Round a rational to two decimal places (SQLite `ROUND(·, 2)`). -/
def round2 (q : ℚ) : ℚ :=
  mkRat (roundHalfAwayZ (q * 100)) 100

/-- `WHERE ymd=:ymd` — the rows of a given day, in table order. -/
def rowsForDay (d : Int) (db : List SpendRow) : List SpendRow :=
  db.filter (fun r => r.ymd == d)

/-- Byte-order (SQLite BINARY collation) comparison of cluster labels. -/
def strLeB (a b : String) : Bool :=
  lexLe a.toList b.toList
where
  lexLe : List Char → List Char → Bool
    | [], _ => true
    | _ :: _, [] => false
    | a :: as, b :: bs => if a == b then lexLe as bs else decide (a.toNat < b.toNat)

/-- The aggregation query of `summarize_day` (src/main.py:87-91):
`SELECT cluster, ROUND(SUM(amount),2) AS total, COUNT(*) AS n FROM spends
WHERE ymd=:ymd GROUP BY cluster ORDER BY total DESC`.  The `GROUP BY`
(temporary b-tree) produces one group per distinct cluster, in ascending
label order; the `ORDER BY` then sorts the groups by total, descending.
SQL does not specify the relative order of groups with equal totals; this
embedding uses a stable merge sort, one admissible execution.  SQLite sums
the `REAL` (binary double) column; here the stored exact rational values
are summed — IEEE-754 accumulation error is not modelled. -/
def aggregate_by_cluster (d : Int) (db : List SpendRow) : List (String × ℚ × Nat) :=
  let rows := rowsForDay d db
  let cs := ((rows.map (fun r => r.cluster)).dedup).mergeSort strLeB
  let groups := cs.map (fun c =>
    let g := rows.filter (fun r => r.cluster == c)
    (c, round2 ((g.map (fun r => r.amount)).sum), g.length))
  groups.mergeSort (fun a b => decide (b.2.1 ≤ a.2.1))

/-- `SELECT ROUND(SUM(amount),2) FROM spends WHERE ymd=:ymd` with the
`or 0.0` default of the source (src/main.py:92-93); the sum over an empty
day is 0 either way.  As in `aggregate_by_cluster`, the sum is taken over
the exact rational values, not over `REAL` doubles. -/
def total_for_day (d : Int) (db : List SpendRow) : ℚ :=
  round2 (((rowsForDay d db).map (fun r => r.amount)).sum)

/-- Sum of the `total` column over the tuples the aggregation returns. -/
def sumTotals (d : Int) (db : List SpendRow) : ℚ :=
  ((aggregate_by_cluster d db).map (fun g => g.2.1)).sum

example : ingest 1 0 0 ⟨1, 7, some "TEXAS spend 500", none, 0⟩ [] =
    (.invalidAmount, []) := by decide
example : ingest 1 0 0 ⟨1, 7, some "TEXAS 500", none, 0⟩ [] =
    (.stored, [⟨1, 7, 0, "TEXAS", 500⟩]) := by decide
example : round2 (mkRat 6 1000) = mkRat 1 100 := by with_unfolding_all decide
example : round2 (mkRat 12 1000) = mkRat 1 100 := by with_unfolding_all decide
example : sumTotals 0 [⟨1, 1, 0, "TEXAS", mkRat 6 1000⟩, ⟨1, 2, 0, "SKY", mkRat 6 1000⟩] =
    mkRat 2 100 := by with_unfolding_all decide
example : total_for_day 0 [⟨1, 1, 0, "TEXAS", mkRat 6 1000⟩, ⟨1, 2, 0, "SKY", mkRat 6 1000⟩] =
    mkRat 1 100 := by with_unfolding_all decide

/-- Structure of one `ingest` call: either it is a non-`stored` path and the
store is untouched, or it is the `stored` path and exactly the one new row —
keyed by the message, dated by the ingestion clock, with a positive amount
and a cluster coming from `extract_cluster` — is appended. -/
lemma ingest_shape (src tz now : Int) (m : Msg) (db : List SpendRow) :
    ((ingest src tz now m db).1 ≠ .stored ∧ (ingest src tz now m db).2 = db) ∨
    (∃ c a, extract_cluster (pyStrip (pyOrText m.text m.caption)) = some c ∧ 0 < a ∧
      ingest src tz now m db =
        (.stored, db ++ [⟨m.chat_id, m.message_id, localDay tz now, c, a⟩])) := by
  unfold ingest
  split
  · exact Or.inl ⟨by simp, rfl⟩
  split
  · exact Or.inl ⟨by simp, rfl⟩
  split
  · exact Or.inl ⟨by simp, rfl⟩
  next cluster hclust =>
    split
    · exact Or.inl ⟨by simp, rfl⟩
    split
    · exact Or.inl ⟨by simp, rfl⟩
    next vs hvs =>
      split
      · exact Or.inl ⟨by simp, rfl⟩
      next hpos =>
        split
        · exact Or.inl ⟨by simp, rfl⟩
        · exact Or.inr ⟨cluster, pyMax vs 0, hclust, lt_of_not_le hpos, rfl⟩

/-- Evaluation of `ingest` once the origin, nonempty-text and cluster guards
are passed and some amount-pattern match exists: the result is decided by
the normalization of the matches. -/
lemma ingest_eval_parse (src tz now : Int) (m : Msg) (db : List SpendRow)
    (hchat : m.chat_id = src)
    (htext : pyStrip (pyOrText m.text m.caption) ≠ "")
    (c : String)
    (hclust : extract_cluster (pyStrip (pyOrText m.text m.caption)) = some c)
    (hm : (pyFindallAmounts (pyStrip (pyOrText m.text m.caption))).isEmpty = false) :
    ingest src tz now m db =
      match (pyFindallAmounts (pyStrip (pyOrText m.text m.caption))).mapM norm_amount with
      | none => (.invalidAmount, db)
      | some vs =>
        if pyMax vs 0 ≤ 0 then (.filteredNonPositive, db)
        else if db.any (fun r => r.chat_id == m.chat_id && r.message_id == m.message_id) then
          (.duplicate, db)
        else (.stored, db ++ [⟨m.chat_id, m.message_id, localDay tz now, c, pyMax vs 0⟩]) := by
  unfold ingest
  rw [if_neg (by simp [hchat]), if_neg htext, hclust, hm]
  rfl

/-- C8: every call to `ingest` either takes the `stored` path and appends
exactly one durable row, or takes any other path (wrong origin, empty text,
no cluster, no amount match, non-positive amount, parse failure, duplicate)
and leaves the store unchanged. -/
theorem claim_C8_frame (src tz now : Int) (m : Msg) (db : List SpendRow) :
    (∃ row, ingest src tz now m db = (.stored, db ++ [row])) ∨
    ((ingest src tz now m db).1 ≠ .stored ∧ (ingest src tz now m db).2 = db) := by
  rcases ingest_shape src tz now m db with h | ⟨c, a, _, _, he⟩
  · exact Or.inr h
  · exact Or.inl ⟨_, he⟩

theorem claim_C8_frame_witness :
    (∃ row, ingest 1 0 0 ⟨2, 9, some "TEXAS 5", none, 0⟩ [] = (.stored, [] ++ [row])) ∨
    ((ingest 1 0 0 ⟨2, 9, some "TEXAS 5", none, 0⟩ []).1 ≠ .stored ∧
     (ingest 1 0 0 ⟨2, 9, some "TEXAS 5", none, 0⟩ []).2 = []) :=
  claim_C8_frame 1 0 0 ⟨2, 9, some "TEXAS 5", none, 0⟩ []

/-- The text `"TEXAS 0.` 323 zeros `1"`: its single amount-pattern match
parses to the exact positive Decimal 1E-324. -/
def c4text : String := "TEXAS 0." ++ String.mk (List.replicate 323 '0') ++ "1"

set_option maxRecDepth 100000 in
/-- C4 failing input: the message `c4text` passes every guard of `ingest` —
in particular the parsed amount 10^(-324) passes `amount <= 0`, being a
positive `Decimal` — and a row is inserted.  But the value lies strictly
below 2^(-1075), half the smallest positive IEEE-754 double (2^(-1074)), so
the `float(amount)` narrowing in the INSERT (src/main.py:83), which rounds
to the nearest double, underflows it to 0.0: the `REAL` column receives a
stored record with `amount = 0`, violating the stored-amount-positive
invariant.  The theorem evaluates the embedded (exact-`Decimal`) pipeline at
this input; the narrowing itself is binary floating point and stays outside
the embedding. -/
theorem claim_C4_underflow :
    ingest 1 0 0 ⟨1, 11, some c4text, none, 0⟩ [] =
      (.stored, [⟨1, 11, 0, "TEXAS", mkRat 1 (10 ^ 324)⟩]) ∧
    0 < mkRat 1 (10 ^ 324) ∧ mkRat 1 (10 ^ 324) < mkRat 1 (2 ^ 1075) := by
  decide

/-- C9: when a row is stored, its `ymd` is the local civil day of the
ingestion-time wall clock (`now` at handler execution, i.e. the time the
message was received), and the result of `ingest` is independent of the
message's own send timestamp (`m.date` is never read). -/
theorem claim_C9_day (src tz now : Int) (m : Msg) (db : List SpendRow) :
    ((ingest src tz now m db).1 = .stored →
      ∃ c a, (ingest src tz now m db).2 =
        db ++ [⟨m.chat_id, m.message_id, localDay tz now, c, a⟩]) ∧
    (∀ d2 : Int, ingest src tz now { m with date := d2 } db = ingest src tz now m db) := by
  constructor
  · intro h
    rcases ingest_shape src tz now m db with ⟨h1, -⟩ | ⟨c, a, -, -, he⟩
    · exact absurd h h1
    · exact ⟨c, a, by rw [he]⟩
  · intro d2
    cases m
    rfl

theorem claim_C9_day_witness :
    ∃ c a, (ingest 1 3600 86400 ⟨1, 5, some "SKY 300", none, 123⟩ []).2 =
      [] ++ [⟨1, 5, localDay 3600 86400, c, a⟩] :=
  (claim_C9_day 1 3600 86400 ⟨1, 5, some "SKY 300", none, 123⟩ []).1 (by decide)

/-- C10: `extract_cluster` follows the fixed tuple order of `CLUSTERS`, not
the position of the keywords in the text: any text containing `TEXAS`
(case-insensitively) is tagged `TEXAS` no matter what else it contains or
where; a text containing `SKY` and `ALX` but not `TEXAS` is tagged `SKY`. -/
theorem claim_C10_priority (s : String) :
    (occursIn "TEXAS".toList (s.toList.map Char.toUpper) = true →
      extract_cluster s = some "TEXAS") ∧
    (occursIn "TEXAS".toList (s.toList.map Char.toUpper) = false →
     occursIn "SKY".toList (s.toList.map Char.toUpper) = true →
     occursIn "ALX".toList (s.toList.map Char.toUpper) = true →
      extract_cluster s = some "SKY") := by
  constructor
  · intro h
    simp at h
    simp [extract_cluster, CLUSTERS, List.find?, h]
  · intro h1 h2 h3
    simp at h1 h2
    simp [extract_cluster, CLUSTERS, List.find?, h1, h2]

theorem claim_C10_priority_witness :
    occursIn "SKY".toList ("SKY then TEXAS".toList.map Char.toUpper) = true ∧
    extract_cluster "SKY then TEXAS" = some "TEXAS" :=
  ⟨by decide, (claim_C10_priority "SKY then TEXAS").1 (by decide)⟩

/-- C2 counterexample: contrary to the claim, `_norm_amount` does not map
`"1.234,56"` or `"1,234.56"` to `1234.56` — both contain a comma together
with a period, no normalization branch fires, and `Decimal` rejects the
comma (an `InvalidOperation` exception, `none` here). -/
theorem claim_C2_counterexample :
    norm_amount "1.234,56" = none ∧ norm_amount "1,234.56" = none := by decide

/-- C2 amended: of the four examples, `"1234,56"` (single comma, no period)
yields `1234.56` and `"3 400"` yields `3400`; `"1.234,56"` and `"1,234.56"`
fail normalization with `InvalidOperation` instead of yielding `1234.56`. -/
theorem claim_C2_amended :
    norm_amount "1234,56" = some (123456 / 100) ∧
    norm_amount "3 400" = some 3400 ∧
    norm_amount "1.234,56" = none ∧
    norm_amount "1,234.56" = none := by
  refine ⟨?_, by decide, by decide, by decide⟩
  have h : norm_amount "1234,56" = some (mkRat 123456 100) := by decide
  rw [h, Rat.mkRat_eq_div]
  norm_num

/-- C1 counterexample: `"TEXAS spend 500"` contains the cluster keyword
`TEXAS` and the positive amount `500` (the group `" 500"` is among the
pattern matches and normalizes to `500`), yet the first call on an empty
store is not `Stored`: the pattern also matches the bare whitespace run
`" "` between `TEXAS` and `spend`, whose normalization strips to the empty
string and raises in `Decimal`, so the handler dies with `InvalidOperation`
and nothing is stored. -/
theorem claim_C1_counterexample :
    extract_cluster "TEXAS spend 500" = some "TEXAS" ∧
    " 500" ∈ pyFindallAmounts "TEXAS spend 500" ∧
    norm_amount " 500" = some 500 ∧
    ingest 1 0 0 ⟨1, 7, some "TEXAS spend 500", none, 0⟩ [] =
      (.invalidAmount, []) := by decide

/-- C1 amended: for a message from the configured origin whose (stripped)
text is nonempty, contains a cluster keyword, and whose amount-pattern
matches all normalize successfully with positive maximum, the first call
with a fresh `(origin_id, message_id)` key stores exactly one row, and a
second call with the same key yields `Duplicate` and stores nothing. -/
theorem claim_C1_amended (src tz now now2 : Int) (m : Msg) (db : List SpendRow)
    (hchat : m.chat_id = src)
    (htext : pyStrip (pyOrText m.text m.caption) ≠ "")
    (c : String)
    (hclust : extract_cluster (pyStrip (pyOrText m.text m.caption)) = some c)
    (vs : List ℚ)
    (hparse : (pyFindallAmounts (pyStrip (pyOrText m.text m.caption))).mapM norm_amount
      = some vs)
    (hpos : 0 < pyMax vs 0)
    (hnew : db.any (fun r => r.chat_id == m.chat_id && r.message_id == m.message_id)
      = false) :
    ingest src tz now m db =
      (.stored, db ++ [⟨m.chat_id, m.message_id, localDay tz now, c, pyMax vs 0⟩]) ∧
    ingest src tz now2 m
        (db ++ [⟨m.chat_id, m.message_id, localDay tz now, c, pyMax vs 0⟩]) =
      (.duplicate, db ++ [⟨m.chat_id, m.message_id, localDay tz now, c, pyMax vs 0⟩]) := by
  have hm : (pyFindallAmounts (pyStrip (pyOrText m.text m.caption))).isEmpty = false := by
    cases hE : pyFindallAmounts (pyStrip (pyOrText m.text m.caption)) with
    | nil =>
      rw [hE] at hparse
      simp only [List.mapM_nil, Option.pure_def, Option.some.injEq] at hparse
      rw [← hparse] at hpos
      simp [pyMax] at hpos
    | cons a t => simp
  constructor
  · rw [ingest_eval_parse src tz now m db hchat htext c hclust hm, hparse]
    simp only [if_neg (not_le.mpr hpos), hnew]
    rfl
  · rw [ingest_eval_parse src tz now2 m _ hchat htext c hclust hm, hparse]
    simp only [if_neg (not_le.mpr hpos), List.any_append, hnew]
    simp

theorem claim_C1_amended_witness :
    ingest 1 0 0 ⟨1, 42, some "TEXAS 500", none, 0⟩ [] =
      (.stored, [] ++ [⟨1, 42, localDay 0 0, "TEXAS", pyMax [500] 0⟩]) ∧
    ingest 1 0 5 ⟨1, 42, some "TEXAS 500", none, 0⟩
        ([] ++ [⟨1, 42, localDay 0 0, "TEXAS", pyMax [500] 0⟩]) =
      (.duplicate, [] ++ [⟨1, 42, localDay 0 0, "TEXAS", pyMax [500] 0⟩]) :=
  claim_C1_amended 1 0 0 5 ⟨1, 42, some "TEXAS 500", none, 0⟩ []
    (by decide) (by decide) "TEXAS" (by decide) [500] (by decide) (by decide) (by decide)

/-- C3: a message (right origin, nonempty text, recognized cluster) among
whose amount-pattern matches is a substring that `_norm_amount` cannot turn
into a decimal fails with the `InvalidOperation` exception local to that
message: nothing is stored, the store is exactly as before, and therefore
the processing of every other message is unaffected. -/
theorem claim_C3_local_failure (src tz now : Int) (m : Msg) (db : List SpendRow)
    (hchat : m.chat_id = src)
    (htext : pyStrip (pyOrText m.text m.caption) ≠ "")
    (c : String)
    (hclust : extract_cluster (pyStrip (pyOrText m.text m.caption)) = some c)
    (hfail : (pyFindallAmounts (pyStrip (pyOrText m.text m.caption))).mapM norm_amount
      = none) :
    ingest src tz now m db = (.invalidAmount, db) ∧
    ∀ (m2 : Msg) (now2 : Int),
      ingest src tz now2 m2 (ingest src tz now m db).2 = ingest src tz now2 m2 db := by
  have hm : (pyFindallAmounts (pyStrip (pyOrText m.text m.caption))).isEmpty = false := by
    cases hE : pyFindallAmounts (pyStrip (pyOrText m.text m.caption)) with
    | nil =>
      rw [hE] at hfail
      simp only [List.mapM_nil, Option.pure_def] at hfail
      exact absurd hfail (by simp)
    | cons a t => simp
  have h1 : ingest src tz now m db = (.invalidAmount, db) := by
    rw [ingest_eval_parse src tz now m db hchat htext c hclust hm, hfail]
  exact ⟨h1, fun m2 now2 => by rw [h1]⟩

theorem claim_C3_local_failure_witness :
    ingest 1 0 0 ⟨1, 7, some "TEXAS .", none, 0⟩ [] = (.invalidAmount, []) ∧
    ∀ (m2 : Msg) (now2 : Int),
      ingest 1 0 now2 m2 (ingest 1 0 0 ⟨1, 7, some "TEXAS .", none, 0⟩ []).2 =
        ingest 1 0 now2 m2 [] :=
  claim_C3_local_failure 1 0 0 ⟨1, 7, some "TEXAS .", none, 0⟩ []
    (by decide) (by decide) "TEXAS" (by decide) (by decide)

set_option maxRecDepth 8000 in
/-- C5 failing input: with two stored records of 0.006 on the same day in
different clusters — a store reachable by two `ingest` calls, as the second
and third conjuncts show — the per-cluster totals are each rounded to 0.01
(summing to 0.02) while the day total rounds 0.012 to 0.01 once, so the sum
over `aggregate_by_cluster` differs from `total_for_day`: the query rounds
per cluster and per day independently and cannot deliver the exact
equality.  (On top of this double rounding, the real query sums `REAL`
doubles, which drifts even for two-decimal amounts — e.g. cluster totals
0.10 and 0.20 sum to 0.30000000000000004 against a day total of 0.3; that
binary-float part stays outside this exact-rational embedding.) -/
theorem claim_C5_rounding_drift :
    (sumTotals 0 [⟨1, 1, 0, "TEXAS", mkRat 6 1000⟩, ⟨1, 2, 0, "SKY", mkRat 6 1000⟩] ≠
     total_for_day 0 [⟨1, 1, 0, "TEXAS", mkRat 6 1000⟩, ⟨1, 2, 0, "SKY", mkRat 6 1000⟩]) ∧
    ingest 1 0 0 ⟨1, 1, some "TEXAS 0.006", none, 0⟩ [] =
      (.stored, [⟨1, 1, 0, "TEXAS", mkRat 6 1000⟩]) ∧
    ingest 1 0 0 ⟨1, 2, some "SKY 0.006", none, 0⟩ [⟨1, 1, 0, "TEXAS", mkRat 6 1000⟩] =
      (.stored, [⟨1, 1, 0, "TEXAS", mkRat 6 1000⟩, ⟨1, 2, 0, "SKY", mkRat 6 1000⟩]) := by
  with_unfolding_all decide
